import Mathlib

/-!
Verification of the DAWSON court-order extractor (`src/dawson_extractor.py`).

Shallow embedding conventions:
* Python strings are modelled as `Str := List Char`; `str s` converts a Lean
  string literal. `s.lower()` is `lower` (ASCII case folding, matching the
  ASCII data the program handles); Python substring containment `a in b` is
  `containsSub b a`.
* Python dicts read with `.get(key, default)` are modelled as structures with
  `Option` fields; the code's defaults are applied at each use site with
  `getD`, exactly where the Python code supplies them.
* JSON responses whose field set matters dynamically (the download-URL
  response, where the code tests both dict truthiness and `'url' in response`)
  are modelled as association lists `List (Str × Str)`.
* Network and filesystem effects are driven by an explicit environment value
  (`DownloadEnv`, `Env`) supplying each call's outcome, and observable actions
  are recorded in an event trace (`Event`). A request helper failure
  (`none` outcome) covers the exception path of `_make_request`, which
  increments the error counter and returns `None`.
* `random.shuffle` is modelled by an environment-supplied reordering function,
  and the iteration order of a Python `set` (`list(set(...))`) is modelled as
  first-occurrence order of the accumulated list; the orchestrator immediately
  shuffles that list, so no claim depends on the chosen set order.
* Wall-clock concerns (`time.sleep` rate limiting, timestamps, durations) are
  not modelled; they carry no data flow relevant to the claims.
-/

/-- A Python string, modelled as its character list. -/
abbrev Str : Type := List Char

/-- Conversion from a Lean string literal to the model type. -/
def str (s : String) : Str := s.toList

/-- Python `s.lower()` (ASCII case folding). -/
def lower (s : Str) : Str := s.map Char.toLower

/-- Python substring test `needle in hay` on strings: `true` iff `needle`
occurs contiguously inside `hay` (the empty needle is in every string). -/
def containsSub : Str → Str → Bool
  | [], needle => needle.isEmpty
  | c :: t, needle => needle.isPrefixOf (c :: t) || containsSub t needle

/-- Python `s.split(sep)` for a one-character separator: splits on every
occurrence, keeping empty segments, and returns `[[]]` on the empty string. -/
def splitOnChar (sep : Char) : Str → List Str
  | [] => [[]]
  | c :: rest =>
    let r := splitOnChar sep rest
    if c = sep then [] :: r
    else
      match r with
      | [] => [[c]]
      | h :: t => (c :: h) :: t

/-- The configuration dictionary: the fields the extraction core reads, each
`Option` because the Python code reads them with `config.get(key, default)`.
Fields with no influence on the modelled behaviour (output directory, rate
delay, API environment) are omitted. -/
structure Config where
  document_types : Option (List Str)
  match_mode : Option Str
  min_per_type : Option Int
  search_keywords : Option (List Str)

/-- `DAWSONExtractor._matches_document_type`: exact mode compares lowercased
full strings against every allowed type; any other mode (the `substring`
default) tests whether some allowed type's lowercase form is a substring of
the reported type's lowercase form. -/
def matchesDocumentType (cfg : Config) (document_type : Str)
    (allowed_types : List Str) : Bool :=
  let match_mode := cfg.match_mode.getD (str "substring")
  if match_mode = str "exact" then
    allowed_types.any fun doc_type => lower doc_type == lower document_type
  else
    allowed_types.any fun doc_type => containsSub (lower document_type) (lower doc_type)

/-- One docket entry of a case-detail response. Every field is `Option`:
the Python code reads them with `entry.get(...)`. -/
structure DocketEntry where
  documentType : Option Str
  isSealed : Option Bool
  docketEntryId : Option Str
  description : Option Str
  filingDate : Option Str
deriving DecidableEq

/-- A case-detail response body. -/
structure CaseData where
  docketNumber : Option Str
  docketEntries : Option (List DocketEntry)
deriving DecidableEq

/-- The dict `filter_court_orders` appends for each accepted entry. -/
structure CandidateDoc where
  docket_number : Option Str
  docket_entry_id : Str
  document_type : Str
  description : Str
  filed_date : Str
deriving DecidableEq

/-- The candidate record built from an entry of `case_data`
(`filter_court_orders`'s append). A missing `docketEntryId` is read as the
empty string; both are rejected by the filter's truthiness test, so an
accepted candidate's id is never empty. -/
def mkCandidate (case_data : CaseData) (entry : DocketEntry) : CandidateDoc :=
  { docket_number := case_data.docketNumber
  , docket_entry_id := entry.docketEntryId.getD []
  , document_type := entry.documentType.getD []
  , description := entry.description.getD []
  , filed_date := entry.filingDate.getD (str "Unknown") }

/-- The acceptance condition of `filter_court_orders` on one entry: type
matches the configured set, the entry is not sealed (missing flag reads as
`False`), and the document id is truthy (present and non-empty). -/
def entryEligible (cfg : Config) (entry : DocketEntry) : Bool :=
  matchesDocumentType cfg (entry.documentType.getD [])
      (cfg.document_types.getD [str "Order"])
    && !(entry.isSealed.getD false)
    && !((entry.docketEntryId.getD []).isEmpty)

/-- `DAWSONExtractor.filter_court_orders`: walk the docket entries in order,
keep those whose type matches, that are not sealed, and that carry a truthy
document id, and build the candidate dict for each. (`entry.get('docketEntryId')`
yields `None` when absent; `None` and the empty string are both falsy, so the
missing-id case is folded into the empty string here.) -/
def filter_court_orders (cfg : Config) (case_data : CaseData) : List CandidateDoc :=
  let allowed_types := cfg.document_types.getD [str "Order"]
  (case_data.docketEntries.getD []).filterMap fun entry =>
    let document_type := entry.documentType.getD []
    let is_sealed := entry.isSealed.getD false
    let document_id := entry.docketEntryId.getD []
    let matches_type := matchesDocumentType cfg document_type allowed_types
    if matches_type && !is_sealed && !document_id.isEmpty then
      some { docket_number := case_data.docketNumber
           , docket_entry_id := document_id
           , document_type := document_type
           , description := entry.description.getD []
           , filed_date := entry.filingDate.getD (str "Unknown") }
    else none

/-- The `self.stats` counters (the `start_time` timestamp is not modelled). -/
structure Stats where
  orders_downloaded : Nat
  orders_skipped : Nat
  api_calls : Nat
  errors : Nat
deriving DecidableEq

/-- The extractor's mutable run state: the stats counters plus the in-memory
set `self.existing_docs` of document ids already on disk. -/
structure RunState where
  stats : Stats
  existing_docs : Finset Str
deriving DecidableEq

def bumpApi (st : RunState) : RunState :=
  { st with stats := { st.stats with api_calls := st.stats.api_calls + 1 } }

def bumpErrors (st : RunState) : RunState :=
  { st with stats := { st.stats with errors := st.stats.errors + 1 } }

def bumpSkipped (st : RunState) : RunState :=
  { st with stats := { st.stats with orders_skipped := st.stats.orders_skipped + 1 } }

def bumpDownloaded (st : RunState) : RunState :=
  { st with stats := { st.stats with orders_downloaded := st.stats.orders_downloaded + 1 } }

/-- Observable actions of the program, in program order: an API request
through `_make_request`, the raw binary GET of a download URL, the PDF file
write, and the sibling metadata file write. -/
inductive Event where
  | apiCall (endpoint : Str)
  | binaryGet (url : Str)
  | wrotePdf (filename : Str)
  | wroteMeta (filename : Str)
deriving DecidableEq

/-- `docket_number.replace('/', '_')` in `download_document`. -/
def mkSafeDocket (docket_number : Str) : Str :=
  docket_number.map fun c => if c = '/' then '_' else c

/-- `metadata.get('filed_date', 'Unknown').split('T')[0]`: the date-only part
of the filing date. -/
def dateOnly (filed_date : Str) : Str :=
  (splitOnChar 'T' filed_date).headD []

/-- The persisted filename
`f"\x7bsafe_docket\x7d_\x7bdocument_id\x7d_\x7bfiled_date\x7d.pdf"` built by
`download_document`. -/
def mkFilename (docket_number document_id filed_date : Str) : Str :=
  mkSafeDocket docket_number ++ ['_'] ++ document_id ++ ['_']
    ++ dateOnly filed_date ++ str ".pdf"

/-- `Path.stem` for the scanned files: every scanned path matches the glob
`**/*.pdf`, so the stem drops the final `.pdf` suffix. -/
def stemOf (fname : Str) : Str :=
  if (str ".pdf").isSuffixOf fname then fname.take (fname.length - 4) else fname

/-- `DAWSONExtractor._scan_existing_documents`, applied to the stems of the
`.pdf` files found under the base output directory: split each stem on `_`
and record the second segment when there are at least two; other files are
silently ignored. -/
def scanExistingDocuments (stems : List Str) : Finset Str :=
  stems.foldl
    (fun existing stem =>
      let parts := splitOnChar '_' stem
      if 2 ≤ parts.length then insert (parts.getD 1 []) existing else existing)
    ∅

/-- Environment outcomes for one `download_document` attempt: the download-URL
response (`none` models the `_make_request` exception path, which returns
`None` after counting an error; `some dict` is the parsed JSON body as an
association list), and success flags for the binary fetch (`session.get` plus
`raise_for_status`), the PDF file write, and the metadata file write — a
`false` flag models the corresponding exception inside the `try` block. -/
structure DownloadEnv where
  urlResp : Option (List (Str × Str))
  fetchOk : Bool
  pdfWriteOk : Bool
  metaWriteOk : Bool

/-- The result of one `download_document` attempt: the returned string, the
extractor state after the attempt, and the trace of observable actions. -/
structure DlOutcome where
  result : Str
  state : RunState
  trace : List Event
deriving DecidableEq

/-- `DAWSONExtractor.download_document`. Mirrors the source line by line:
known-id short-circuit (`skipped`); `_make_request` for the download URL
(api-call counter up front, error counter only on the exception path);
the falsy-response / missing-`url` check (`error`, no counter change);
then the `try` block: binary fetch, PDF write, `orders_downloaded` increment,
in-memory index insertion, metadata write — any exception inside the block
increments the error counter and returns `error`, leaving whatever had
already been done in place. -/
def download_document (env : DownloadEnv) (st : RunState)
    (docket_number document_id : Str) (metadata : CandidateDoc) : DlOutcome :=
  if document_id ∈ st.existing_docs then
    { result := str "skipped", state := bumpSkipped st, trace := [] }
  else
    let endpoint := str "/public-api/" ++ docket_number ++ ['/'] ++ document_id
      ++ str "/public-document-download-url"
    let st1 := bumpApi st
    match env.urlResp with
    | none =>
      { result := str "error", state := bumpErrors st1
      , trace := [Event.apiCall endpoint] }
    | some response =>
      if response.isEmpty || (response.lookup (str "url")).isNone then
        { result := str "error", state := st1, trace := [Event.apiCall endpoint] }
      else
        let download_url := (response.lookup (str "url")).getD []
        let filename := mkFilename docket_number document_id metadata.filed_date
        if env.fetchOk = false then
          { result := str "error", state := bumpErrors st1
          , trace := [Event.apiCall endpoint, Event.binaryGet download_url] }
        else if env.pdfWriteOk = false then
          { result := str "error", state := bumpErrors st1
          , trace := [Event.apiCall endpoint, Event.binaryGet download_url] }
        else
          let st2 := bumpDownloaded st1
          let st3 := { st2 with existing_docs := insert document_id st2.existing_docs }
          if env.metaWriteOk = false then
            { result := str "error", state := bumpErrors st3
            , trace := [Event.apiCall endpoint, Event.binaryGet download_url,
                        Event.wrotePdf filename] }
          else
            { result := str "downloaded", state := st3
            , trace := [Event.apiCall endpoint, Event.binaryGet download_url,
                        Event.wrotePdf filename, Event.wroteMeta filename] }

/-- One record of a search response's `results` list. -/
structure SearchItem where
  docketNumber : Option Str
  documentType : Option Str

/-- A search response body (`data.get('results', [])`). -/
structure SearchData where
  results : Option (List SearchItem)

/-- The environment of a whole extraction run: per-keyword search outcomes,
the reordering performed by `random.shuffle`, per-docket case-detail outcomes,
and per-document-id download outcomes. A `none` response models the
`_make_request` exception path (error counted, `None` returned). -/
structure Env where
  search : Str → Option SearchData
  shuffleOrder : List Str → List Str
  caseDetails : Str → Option CaseData
  download : Str → DownloadEnv

/-- `DAWSONExtractor.search_orders`: one search request; on failure return the
empty list; on success collect the docket numbers of results with a truthy
docket number and a matching document type. The Python code accumulates into a
`set` and returns `list(...)` of it; the model returns the deduplicated list
in first-occurrence order (the caller shuffles the merged list, so no claim
depends on the set's iteration order). -/
def search_orders (cfg : Config) (env : Env) (st : RunState) (keyword : Str) :
    List Str × RunState × List Event :=
  let st1 := bumpApi st
  let evs := [Event.apiCall (str "/public-api/order-search")]
  match env.search keyword with
  | none => ([], bumpErrors st1, evs)
  | some data =>
    let results := data.results.getD []
    let allowed_types := cfg.document_types.getD [str "Order"]
    let docket_numbers := results.foldl
      (fun acc item =>
        let docket_number := item.docketNumber.getD []
        let document_type := item.documentType.getD []
        if !docket_number.isEmpty
            && matchesDocumentType cfg document_type allowed_types
            && !(acc.contains docket_number)
        then acc ++ [docket_number] else acc)
      []
    (docket_numbers, st1, evs)

/-- The search loop of `extract_orders`: one `search_orders` call per
configured keyword, concatenating the returned docket lists and threading the
run state and the event trace. -/
def searchMany (cfg : Config) (env : Env) : List Str → RunState →
    List Str × RunState × List Event
  | [], st => ([], st, [])
  | keyword :: rest, st =>
    let r1 := search_orders cfg env st keyword
    let r2 := searchMany cfg env rest r1.2.1
    (r1.1 ++ r2.1, r2.2.1, r1.2.2 ++ r2.2.2)

/-- `list(set(all_dockets))`, modelled as first-occurrence-order
deduplication. -/
def dedupFirst (l : List Str) : List Str :=
  l.foldl (fun acc d => if acc.contains d then acc else acc ++ [d]) []

/-- Python dict read `d.get(k, 0)` on the per-type counter dict, modelled as
an insertion-ordered association list. -/
def dictGet (d : List (Str × Nat)) (k : Str) : Nat :=
  (((d.find? fun p => p.1 == k).map Prod.snd).getD 0)

/-- Python dict write `d[k] = v` on the per-type counter dict: overwrite the
existing binding, or append a new one. -/
def dictSet (d : List (Str × Nat)) (k : Str) (v : Nat) : List (Str × Nat) :=
  if d.any fun p => p.1 == k then
    d.map fun p => if p.1 == k then (p.1, v) else p
  else d ++ [(k, v)]

/-- `type_counts = \x7bdoc_type: 0 for doc_type in document_types\x7d`. -/
def dictInit (keys : List Str) : List (Str × Nat) :=
  keys.foldl (fun d k => dictSet d k 0) []

/-- The local `needs_type` closure of `extract_orders`: always true without a
positive per-type minimum; otherwise true iff the first configured type whose
lowercase form equals the document type's is still below the minimum, and true
when no configured type matches. -/
def needs_type (min_per_type : Int) (document_types : List Str)
    (type_counts : List (Str × Nat)) (doc_type : Str) : Bool :=
  if min_per_type ≤ 0 then true
  else
    match document_types.find? fun t => lower t == lower doc_type with
    | some configured_type => (dictGet type_counts configured_type : Int) < min_per_type
    | none => true

/-- The local `all_minimums_met` closure of `extract_orders`: vacuously true
without a positive per-type minimum, otherwise every tracked count has reached
the minimum. -/
def all_minimums_met (min_per_type : Int) (type_counts : List (Str × Nat)) : Bool :=
  if min_per_type ≤ 0 then true
  else type_counts.all fun p => min_per_type ≤ (p.2 : Int)

/-- The per-type count update after a successful download: bump the first
configured type whose lowercase form equals the downloaded type's (`break`
after the first match); no counter changes when none matches. -/
def bumpTypeCount (document_types : List Str) (type_counts : List (Str × Nat))
    (doc_type : Str) : List (Str × Nat) :=
  match document_types.find? fun t => lower t == lower doc_type with
  | some configured_type =>
    dictSet type_counts configured_type (dictGet type_counts configured_type + 1)
  | none => type_counts

/-- The mutable locals of the docket-processing loop of `extract_orders`. -/
structure LoopState where
  state : RunState
  type_counts : List (Str × Nat)
  orders_collected : Nat
  trace : List Event
deriving DecidableEq

/-- The inner candidate loop of `extract_orders` over one docket's filtered
documents: stop when `needed` is reached; skip a candidate whose type is not
needed while minimums are active and unmet; otherwise attempt the download,
and on `downloaded` bump the collected counter and the type counts. -/
def runCandidates (env : Env) (needed min_per_type : Int)
    (document_types : List Str) : List CandidateDoc → LoopState → LoopState
  | [], s => s
  | order :: rest, s =>
    if needed ≤ (s.orders_collected : Int) then s
    else if !(all_minimums_met min_per_type s.type_counts)
        && !(needs_type min_per_type document_types s.type_counts order.document_type) then
      runCandidates env needed min_per_type document_types rest s
    else
      let dl := download_document (env.download order.docket_entry_id) s.state
        (order.docket_number.getD []) order.docket_entry_id order
      let s1 : LoopState := { s with state := dl.state, trace := s.trace ++ dl.trace }
      if dl.result = str "downloaded" then
        runCandidates env needed min_per_type document_types rest
          { s1 with
            orders_collected := s1.orders_collected + 1
            type_counts := bumpTypeCount document_types s1.type_counts order.document_type }
      else
        runCandidates env needed min_per_type document_types rest s1

/-- One iteration of the docket loop of `extract_orders`: fetch the case
details via `_make_request` (skip the docket on failure), filter its docket
entries, narrow to needed types while minimums are unmet, then run the
candidate loop. -/
def processDocket (cfg : Config) (env : Env) (needed min_per_type : Int)
    (document_types : List Str) (docket : Str) (s : LoopState) : LoopState :=
  let st1 := bumpApi s.state
  let ev := Event.apiCall (str "/public-api/cases/" ++ docket)
  match env.caseDetails docket with
  | none => { s with state := bumpErrors st1, trace := s.trace ++ [ev] }
  | some case_data =>
    let s1 : LoopState := { s with state := st1, trace := s.trace ++ [ev] }
    let documents := filter_court_orders cfg case_data
    if documents.isEmpty then s1
    else
      let documents2 :=
        if !(all_minimums_met min_per_type s1.type_counts) then
          documents.filter fun doc =>
            needs_type min_per_type document_types s1.type_counts doc.document_type
        else documents
      if documents2.isEmpty then s1
      else runCandidates env needed min_per_type document_types documents2 s1

/-- The `while orders_collected < needed and docket_index < len(unique_dockets)`
loop of `extract_orders`, structurally recursive over the shuffled docket
list. -/
def runLoop (cfg : Config) (env : Env) (needed min_per_type : Int)
    (document_types : List Str) : List Str → LoopState → LoopState
  | [], s => s
  | docket :: rest, s =>
    if (s.orders_collected : Int) < needed then
      runLoop cfg env needed min_per_type document_types rest
        (processDocket cfg env needed min_per_type document_types docket s)
    else s

/-- The observable outcome of `extract_orders`: the final run state, the event
trace, the final per-type counts and collected counter, and whether the run
reached `_print_summary`. -/
structure ExtractResult where
  state : RunState
  trace : List Event
  type_counts : List (Str × Nat)
  orders_collected : Nat
  summaryEmitted : Bool
deriving DecidableEq

/-- `DAWSONExtractor.extract_orders`: compute the shortfall
`needed = max(0, num_orders - len(self.existing_docs))`; when it is zero,
print the summary immediately and stop. Otherwise run one search per
configured keyword, deduplicate the merged docket list, and — when it is
empty — print `"No dockets found. Exiting."` and return WITHOUT the summary
(the early `return` on the empty docket list precedes `_print_summary`).
Otherwise shuffle, run the docket loop, and print the summary. -/
def extract_orders (cfg : Config) (env : Env) (st0 : RunState)
    (num_orders : Int) : ExtractResult :=
  let existing_count : Int := (st0.existing_docs.card : Int)
  let needed : Int := max 0 (num_orders - existing_count)
  let min_per_type : Int := cfg.min_per_type.getD 0
  let document_types := cfg.document_types.getD [str "Order"]
  let type_counts := dictInit document_types
  if needed = 0 then
    { state := st0, trace := [], type_counts := type_counts
    , orders_collected := 0, summaryEmitted := true }
  else
    let sr := searchMany cfg env (cfg.search_keywords.getD [str "order"]) st0
    let unique_dockets := dedupFirst sr.1
    if unique_dockets.isEmpty then
      { state := sr.2.1, trace := sr.2.2, type_counts := type_counts
      , orders_collected := 0, summaryEmitted := false }
    else
      let shuffled := env.shuffleOrder unique_dockets
      let fin := runLoop cfg env needed min_per_type document_types shuffled
        { state := sr.2.1, type_counts := type_counts
        , orders_collected := 0, trace := sr.2.2 }
      { state := fin.state, trace := fin.trace, type_counts := fin.type_counts
      , orders_collected := fin.orders_collected, summaryEmitted := true }

/-! ### String-matching characterizations -/

theorem isPrefixOf_eq_true (l₁ l₂ : Str) :
    l₁.isPrefixOf l₂ = true ↔ ∃ t, l₂ = l₁ ++ t := by
  induction l₁ generalizing l₂ with
  | nil => simp [List.isPrefixOf]
  | cons a as ih =>
    cases l₂ with
    | nil => simp [List.isPrefixOf]
    | cons b bs =>
      simp only [List.isPrefixOf, Bool.and_eq_true, beq_iff_eq, ih,
        List.cons_append, List.cons.injEq]
      constructor
      · rintro ⟨hab, t, ht⟩
        exact ⟨t, hab.symm, ht⟩
      · rintro ⟨t, hab, ht⟩
        exact ⟨hab.symm, t, ht⟩

theorem containsSub_eq_true (hay needle : Str) :
    containsSub hay needle = true ↔ ∃ pre post, hay = pre ++ needle ++ post := by
  induction hay with
  | nil =>
    simp only [containsSub, List.isEmpty_iff]
    constructor
    · rintro rfl
      exact ⟨[], [], rfl⟩
    · rintro ⟨pre, post, h⟩
      rcases List.append_eq_nil.1 h.symm with ⟨h1, h2⟩
      exact (List.append_eq_nil.1 h1).2
  | cons c t ih =>
    simp only [containsSub, Bool.or_eq_true, isPrefixOf_eq_true, ih]
    constructor
    · rintro (⟨post, hp⟩ | ⟨pre, post, hp⟩)
      · exact ⟨[], post, by simpa using hp⟩
      · exact ⟨c :: pre, post, by simp [hp]⟩
    · rintro ⟨pre, post, hp⟩
      cases pre with
      | nil => exact Or.inl ⟨post, by simpa using hp⟩
      | cons p ps =>
        rcases List.cons.injEq .. ▸ hp with ⟨rfl, ht⟩
        exact Or.inr ⟨ps, post, ht⟩

/-- C5: in `exact` mode, `_matches_document_type` is true iff the lowercase
form of the reported type equals the lowercase form of some wanted type; in
`substring` mode, it is true iff some wanted type's lowercase form occurs
contiguously anywhere inside the reported type's lowercase form
(wanted-in-reported containment). -/
theorem claim_C5_type_matching (cfg : Config) (reported : Str) (wanted : List Str) :
    (cfg.match_mode = some (str "exact") →
      (matchesDocumentType cfg reported wanted = true ↔
        ∃ t ∈ wanted, lower t = lower reported)) ∧
    (cfg.match_mode = some (str "substring") →
      (matchesDocumentType cfg reported wanted = true ↔
        ∃ t ∈ wanted, ∃ pre post, lower reported = pre ++ lower t ++ post)) := by
  constructor
  · intro h
    simp [matchesDocumentType, h, List.any_eq_true]
  · intro h
    have hne : ¬(str "substring" = str "exact") := by decide
    simp [matchesDocumentType, h, hne, List.any_eq_true, containsSub_eq_true]

theorem claim_C5_type_matching_witness :
    matchesDocumentType ⟨some [str "Order"], some (str "substring"), none, none⟩
        (str "Order on Motion to Dismiss") [str "order"] = true ↔
      ∃ t ∈ [str "order"], ∃ pre post,
        lower (str "Order on Motion to Dismiss") = pre ++ lower t ++ post :=
  (claim_C5_type_matching ⟨some [str "Order"], some (str "substring"), none, none⟩
    (str "Order on Motion to Dismiss") [str "order"]).2 rfl

/-! ### Case filter -/

theorem filterMap_ite_eq_filter_map {α β : Type} (p : α → Bool) (g : α → β)
    (l : List α) :
    (l.filterMap fun a => if p a then some (g a) else none)
      = (l.filter p).map g := by
  induction l with
  | nil => rfl
  | cons a t ih =>
    by_cases h : p a
    · simp [List.filterMap_cons, List.filter_cons, h, ih]
    · simp [List.filterMap_cons, List.filter_cons, h, ih]

theorem filter_court_orders_eq (cfg : Config) (cd : CaseData) :
    filter_court_orders cfg cd
      = ((cd.docketEntries.getD []).filter (entryEligible cfg)).map (mkCandidate cd) := by
  show ((cd.docketEntries.getD []).filterMap fun entry =>
      if entryEligible cfg entry then some (mkCandidate cd entry) else none) = _
  exact filterMap_ite_eq_filter_map _ _ _

/-- C8: `filter_court_orders` outputs exactly the candidate records of the
docket entries whose type matches the wanted set, that are not flagged sealed,
and that carry a non-empty document id, in the docket's native entry order
(a filter of the entry list, no re-sorting); in particular every output
candidate arises from a non-sealed entry, so a sealed entry with a matching
type contributes nothing regardless of match mode. -/
theorem claim_C8_case_filter (cfg : Config) (cd : CaseData) :
    filter_court_orders cfg cd
      = ((cd.docketEntries.getD []).filter (entryEligible cfg)).map (mkCandidate cd)
    ∧ ∀ d ∈ filter_court_orders cfg cd, ∃ e ∈ cd.docketEntries.getD [],
        entryEligible cfg e = true ∧ e.isSealed.getD false = false
          ∧ d = mkCandidate cd e := by
  refine ⟨filter_court_orders_eq cfg cd, ?_⟩
  intro d hd
  rw [filter_court_orders_eq] at hd
  rcases List.mem_map.1 hd with ⟨e, he, rfl⟩
  rcases List.mem_filter.1 he with ⟨hmem, helig⟩
  refine ⟨e, hmem, helig, ?_, rfl⟩
  have h2 := helig
  simp only [entryEligible, Bool.and_eq_true, Bool.not_eq_true'] at h2
  exact h2.1.2

/-- A concrete unsealed docket entry used by witnesses. -/
def entryA : DocketEntry :=
  { documentType := some (str "Order"), isSealed := none
  , docketEntryId := some (str "id-1"), description := none
  , filingDate := some (str "2023-01-01T00:00:00") }

/-- A concrete one-entry case used by witnesses. -/
def caseA : CaseData :=
  { docketNumber := some (str "12345-67"), docketEntries := some [entryA] }

/-- A concrete substring-mode configuration used by witnesses. -/
def cfgSub : Config :=
  { document_types := some [str "Order"], match_mode := some (str "substring")
  , min_per_type := none, search_keywords := some [str "order"] }

theorem claim_C8_case_filter_witness :
    ∃ e ∈ caseA.docketEntries.getD [], entryEligible cfgSub e = true
      ∧ e.isSealed.getD false = false
      ∧ mkCandidate caseA entryA = mkCandidate caseA e :=
  (claim_C8_case_filter cfgSub caseA).2 (mkCandidate caseA entryA) (by decide)

/-- C10: a docket entry that lacks the sealed flag entirely is treated as not
sealed: with a matching type and a non-empty document id its candidate record
is in the output of `filter_court_orders`. -/
theorem claim_C10_missing_sealed_flag (cfg : Config) (cd : CaseData)
    (e : DocketEntry) (he : e ∈ cd.docketEntries.getD [])
    (hs : e.isSealed = none)
    (hm : matchesDocumentType cfg (e.documentType.getD [])
      (cfg.document_types.getD [str "Order"]) = true)
    (hid : (e.docketEntryId.getD []).isEmpty = false) :
    mkCandidate cd e ∈ filter_court_orders cfg cd := by
  rw [filter_court_orders_eq]
  refine List.mem_map_of_mem _ (List.mem_filter.2 ⟨he, ?_⟩)
  simp [entryEligible, hs, hm, hid]

theorem claim_C10_missing_sealed_flag_witness :
    mkCandidate caseA entryA ∈ filter_court_orders cfgSub caseA :=
  claim_C10_missing_sealed_flag cfgSub caseA entryA (by decide) rfl
    (by decide) (by decide)

/-! ### Download step -/

/-- A zeroed run state with an empty existing-document index. -/
def st0 : RunState := { stats := ⟨0, 0, 0, 0⟩, existing_docs := ∅ }

/-- A zeroed run state whose index already holds the id `id-1`. -/
def stWithId : RunState := { stats := ⟨0, 0, 0, 0⟩, existing_docs := {str "id-1"} }

/-- Concrete candidate metadata used by witnesses. -/
def mdA : CandidateDoc :=
  { docket_number := some (str "12345-67"), docket_entry_id := str "id-1"
  , document_type := str "Order", description := []
  , filed_date := str "2023-01-01T00:00:00" }

/-- A download environment whose URL request would fail (used to show the
dedup path consults nothing). -/
def envNone : DownloadEnv := ⟨none, true, true, true⟩

/-- A download environment where everything succeeds except the metadata
file write. -/
def envMetaFail : DownloadEnv := ⟨some [(str "url", str "http")], true, true, false⟩

/-- A download environment whose URL request succeeds with a non-empty body
that lacks the `url` field. -/
def envNoUrl : DownloadEnv := ⟨some [(str "x", str "y")], true, true, true⟩

/-- A download environment where everything succeeds. -/
def envOk : DownloadEnv := ⟨some [(str "url", str "http")], true, true, true⟩

/-- C7: a download attempt whose document id is already in the
existing-document index returns `skipped`, issues no network call (empty
event trace, `api_calls` unchanged), and only bumps the skipped counter. -/
theorem claim_C7_dedup_skip (env : DownloadEnv) (st : RunState)
    (docket_number document_id : Str) (metadata : CandidateDoc)
    (h : document_id ∈ st.existing_docs) :
    download_document env st docket_number document_id metadata
      = ⟨str "skipped", bumpSkipped st, []⟩
    ∧ (download_document env st docket_number document_id metadata).state.stats.api_calls
        = st.stats.api_calls := by
  constructor
  · simp [download_document, h]
  · simp [download_document, h, bumpSkipped]

theorem claim_C7_dedup_skip_witness :
    download_document envNone stWithId (str "12345-67") (str "id-1") mdA
      = ⟨str "skipped", bumpSkipped stWithId, []⟩
    ∧ (download_document envNone stWithId (str "12345-67") (str "id-1") mdA).state.stats.api_calls
        = stWithId.stats.api_calls :=
  claim_C7_dedup_skip envNone stWithId (str "12345-67") (str "id-1") mdA (by decide)

/-- C2 counterexample: when the PDF write succeeds but the sibling metadata
write raises, `download_document` returns `error`, yet the attempt has already
incremented `orders_downloaded` and inserted the id into the in-memory index —
the run state is NOT left unchanged by this `error` attempt, and the id is
added without the attempt counting as downloaded. -/
theorem claim_C2_counterexample :
    (download_document envMetaFail st0 (str "12345-67") (str "id-1") mdA).result
        = str "error"
    ∧ (download_document envMetaFail st0 (str "12345-67") (str "id-1") mdA).state.stats.orders_downloaded
        = st0.stats.orders_downloaded + 1
    ∧ str "id-1"
        ∈ (download_document envMetaFail st0 (str "12345-67") (str "id-1") mdA).state.existing_docs := by
  decide

/-- C2 (amended): `downloaded` is returned only when both the PDF write and
the metadata write occurred, and then the counter is incremented and the id
inserted into the index; an `error` outcome leaves the downloaded counter and
the index untouched EXCEPT when the failure is the metadata write after a
successful PDF write, in which case `error` is returned with the counter
already incremented and the id already in the index. -/
theorem claim_C2_download_atomicity_amended (env : DownloadEnv) (st : RunState)
    (docket_number document_id : Str) (metadata : CandidateDoc) :
    ((download_document env st docket_number document_id metadata).result
        = str "downloaded" →
      Event.wrotePdf (mkFilename docket_number document_id metadata.filed_date)
          ∈ (download_document env st docket_number document_id metadata).trace
      ∧ Event.wroteMeta (mkFilename docket_number document_id metadata.filed_date)
          ∈ (download_document env st docket_number document_id metadata).trace
      ∧ (download_document env st docket_number document_id metadata).state.stats.orders_downloaded
          = st.stats.orders_downloaded + 1
      ∧ (download_document env st docket_number document_id metadata).state.existing_docs
          = insert document_id st.existing_docs)
    ∧ ((download_document env st docket_number document_id metadata).result
        = str "error" →
      ((download_document env st docket_number document_id metadata).state.stats.orders_downloaded
          = st.stats.orders_downloaded
        ∧ (download_document env st docket_number document_id metadata).state.existing_docs
          = st.existing_docs
        ∧ Event.wrotePdf (mkFilename docket_number document_id metadata.filed_date)
          ∉ (download_document env st docket_number document_id metadata).trace)
      ∨ (env.metaWriteOk = false
        ∧ Event.wrotePdf (mkFilename docket_number document_id metadata.filed_date)
          ∈ (download_document env st docket_number document_id metadata).trace
        ∧ Event.wroteMeta (mkFilename docket_number document_id metadata.filed_date)
          ∉ (download_document env st docket_number document_id metadata).trace
        ∧ (download_document env st docket_number document_id metadata).state.stats.orders_downloaded
          = st.stats.orders_downloaded + 1
        ∧ (download_document env st docket_number document_id metadata).state.existing_docs
          = insert document_id st.existing_docs)) := by
  by_cases hmem : document_id ∈ st.existing_docs
  · have hres : (download_document env st docket_number document_id metadata).result
        = str "skipped" := by simp [download_document, hmem]
    constructor
    · intro hr
      rw [hres] at hr
      exact absurd hr (by decide)
    · intro hr
      rw [hres] at hr
      exact absurd hr (by decide)
  · rcases henv : env.urlResp with _ | resp
    · constructor
      · intro hr
        have hres : (download_document env st docket_number document_id metadata).result
            = str "error" := by simp [download_document, hmem, henv]
        rw [hres] at hr
        exact absurd hr (by decide)
      · intro hr
        left
        refine ⟨?_, ?_, ?_⟩ <;>
          simp [download_document, hmem, henv, bumpApi, bumpErrors]
    · by_cases hurl : (resp.isEmpty || (resp.lookup (str "url")).isNone) = true
      · constructor
        · intro hr
          have hres : (download_document env st docket_number document_id metadata).result
              = str "error" := by simp [download_document, hmem, henv, hurl]
          rw [hres] at hr
          exact absurd hr (by decide)
        · intro hr
          left
          refine ⟨?_, ?_, ?_⟩ <;>
            simp [download_document, hmem, henv, hurl, bumpApi]
      · rcases hf : env.fetchOk with _ | _
        · constructor
          · intro hr
            have hres : (download_document env st docket_number document_id metadata).result
                = str "error" := by simp [download_document, hmem, henv, hurl, hf]
            rw [hres] at hr
            exact absurd hr (by decide)
          · intro hr
            left
            refine ⟨?_, ?_, ?_⟩ <;>
              simp [download_document, hmem, henv, hurl, hf, bumpApi, bumpErrors]
        · rcases hp : env.pdfWriteOk with _ | _
          · constructor
            · intro hr
              have hres : (download_document env st docket_number document_id metadata).result
                  = str "error" := by simp [download_document, hmem, henv, hurl, hf, hp]
              rw [hres] at hr
              exact absurd hr (by decide)
            · intro hr
              left
              refine ⟨?_, ?_, ?_⟩ <;>
                simp [download_document, hmem, henv, hurl, hf, hp, bumpApi, bumpErrors]
          · rcases hm : env.metaWriteOk with _ | _
            · constructor
              · intro hr
                have hres : (download_document env st docket_number document_id metadata).result
                    = str "error" := by simp [download_document, hmem, henv, hurl, hf, hp, hm]
                rw [hres] at hr
                exact absurd hr (by decide)
              · intro hr
                right
                refine ⟨rfl, ?_, ?_, ?_, ?_⟩ <;>
                  simp [download_document, hmem, henv, hurl, hf, hp, hm,
                    bumpApi, bumpErrors, bumpDownloaded]
            · constructor
              · intro hr
                refine ⟨?_, ?_, ?_, ?_⟩ <;>
                  simp [download_document, hmem, henv, hurl, hf, hp, hm,
                    bumpApi, bumpDownloaded]
              · intro hr
                have hres : (download_document env st docket_number document_id metadata).result
                    = str "downloaded" := by simp [download_document, hmem, henv, hurl, hf, hp, hm]
                rw [hres] at hr
                exact absurd hr (by decide)

theorem claim_C2_download_atomicity_amended_witness :
    Event.wrotePdf (mkFilename (str "12345-67") (str "id-1") mdA.filed_date)
        ∈ (download_document envOk st0 (str "12345-67") (str "id-1") mdA).trace
    ∧ Event.wroteMeta (mkFilename (str "12345-67") (str "id-1") mdA.filed_date)
        ∈ (download_document envOk st0 (str "12345-67") (str "id-1") mdA).trace
    ∧ (download_document envOk st0 (str "12345-67") (str "id-1") mdA).state.stats.orders_downloaded
        = st0.stats.orders_downloaded + 1
    ∧ (download_document envOk st0 (str "12345-67") (str "id-1") mdA).state.existing_docs
        = insert (str "id-1") st0.existing_docs :=
  (claim_C2_download_atomicity_amended envOk st0 (str "12345-67") (str "id-1") mdA).1
    (by decide)

/-- C4 counterexample: when the download-URL request succeeds but the response
body lacks the `url` field, `download_document` returns `error` WITHOUT
incrementing the run's errors counter, so this failure never reaches the final
summary's error tally. -/
theorem claim_C4_counterexample :
    (download_document envNoUrl st0 (str "12345-67") (str "id-1") mdA).result
        = str "error"
    ∧ (download_document envNoUrl st0 (str "12345-67") (str "id-1") mdA).state.stats.errors
        = st0.stats.errors := by
  decide

/-- C4 (amended): a download attempt returning `error` increments the errors
counter — the transport/HTTP failure of the URL request is counted inside the
request helper, and a failed binary fetch, PDF write, or metadata write is
counted in the download step — EXCEPT when the URL request succeeds with a
falsy body or one lacking the `url` field, where `error` is returned with the
errors counter unchanged. -/
theorem claim_C4_errors_counted_amended (env : DownloadEnv) (st : RunState)
    (docket_number document_id : Str) (metadata : CandidateDoc)
    (h : (download_document env st docket_number document_id metadata).result
      = str "error") :
    (env.urlResp = none →
      (download_document env st docket_number document_id metadata).state.stats.errors
        = st.stats.errors + 1)
    ∧ (∀ d, env.urlResp = some d →
        (d.isEmpty || (d.lookup (str "url")).isNone) = true →
        (download_document env st docket_number document_id metadata).state.stats.errors
          = st.stats.errors)
    ∧ (∀ d, env.urlResp = some d →
        (d.isEmpty || (d.lookup (str "url")).isNone) = false →
        (download_document env st docket_number document_id metadata).state.stats.errors
          = st.stats.errors + 1) := by
  refine ⟨?_, ?_, ?_⟩
  · intro henv
    by_cases hmem : document_id ∈ st.existing_docs
    · have hres : (download_document env st docket_number document_id metadata).result
          = str "skipped" := by simp [download_document, hmem]
      rw [hres] at h
      exact absurd h (by decide)
    · simp [download_document, hmem, henv, bumpApi, bumpErrors]
  · intro d henv hurl
    by_cases hmem : document_id ∈ st.existing_docs
    · have hres : (download_document env st docket_number document_id metadata).result
          = str "skipped" := by simp [download_document, hmem]
      rw [hres] at h
      exact absurd h (by decide)
    · simp [download_document, hmem, henv, hurl, bumpApi]
  · intro d henv hurl
    by_cases hmem : document_id ∈ st.existing_docs
    · have hres : (download_document env st docket_number document_id metadata).result
          = str "skipped" := by simp [download_document, hmem]
      rw [hres] at h
      exact absurd h (by decide)
    · rcases hf : env.fetchOk with _ | _
      · simp [download_document, hmem, henv, hurl, hf, bumpApi, bumpErrors]
      · rcases hp : env.pdfWriteOk with _ | _
        · simp [download_document, hmem, henv, hurl, hf, hp, bumpApi, bumpErrors]
        · rcases hm : env.metaWriteOk with _ | _
          · simp [download_document, hmem, henv, hurl, hf, hp, hm,
              bumpApi, bumpErrors, bumpDownloaded]
          · have hres : (download_document env st docket_number document_id metadata).result
                = str "downloaded" := by
              simp [download_document, hmem, henv, hurl, hf, hp, hm]
            rw [hres] at h
            exact absurd h (by decide)

theorem claim_C4_errors_counted_amended_witness :
    (download_document envMetaFail st0 (str "12345-67") (str "id-2") mdA).state.stats.errors
      = st0.stats.errors + 1 :=
  (claim_C4_errors_counted_amended envMetaFail st0 (str "12345-67") (str "id-2") mdA
      (by decide)).2.2 [(str "url", str "http")] rfl (by decide)

/-! ### Filename round-trip -/

theorem splitOnChar_not_mem (sep : Char) (xs : Str) (h : sep ∉ xs) :
    splitOnChar sep xs = [xs] := by
  induction xs with
  | nil => rfl
  | cons c t ih =>
    rw [List.mem_cons, not_or] at h
    have hc : ¬(c = sep) := fun hh => h.1 hh.symm
    simp [splitOnChar, hc, ih h.2]

theorem splitOnChar_append_sep (sep : Char) (xs ys : Str) (h : sep ∉ xs) :
    splitOnChar sep (xs ++ sep :: ys) = xs :: splitOnChar sep ys := by
  induction xs with
  | nil => simp [splitOnChar]
  | cons c t ih =>
    rw [List.mem_cons, not_or] at h
    have hc : ¬(c = sep) := fun hh => h.1 hh.symm
    simp [splitOnChar, hc, ih h.2]

theorem mkSafeDocket_not_mem (d : Str) (h : '/' ∉ d) : mkSafeDocket d = d := by
  induction d with
  | nil => rfl
  | cons c t ih =>
    rw [List.mem_cons, not_or] at h
    have hc : ¬(c = '/') := fun hh => h.1 hh.symm
    have iht : mkSafeDocket t = t := ih h.2
    simp only [mkSafeDocket, List.map_cons] at iht ⊢
    rw [if_neg hc, iht]

theorem stemOf_append_pdf (s : Str) : stemOf (s ++ str ".pdf") = s := by
  have hsuf : (str ".pdf").isSuffixOf (s ++ str ".pdf") = true := by
    unfold List.isSuffixOf
    rw [isPrefixOf_eq_true, List.reverse_append]
    exact ⟨s.reverse, rfl⟩
  unfold stemOf
  rw [if_pos hsuf, List.length_append]
  have h4 : (str ".pdf").length = 4 := rfl
  rw [h4, Nat.add_sub_cancel]
  exact List.take_left s (str ".pdf")

/-- C1 counterexample: for the docket number `12345/67` (path-unsafe `/`
replaced by `_` at write time), the index scan recovers the segment `67`
rather than the document id `abcde-id`, so the universal round-trip fails. -/
theorem claim_C1_counterexample :
    scanExistingDocuments
        [stemOf (mkFilename (str "12345/67") (str "abcde-id") (str "2023-01-01"))]
      = {str "67"}
    ∧ ¬(str "67" = str "abcde-id") := by
  decide

/-- C1 (amended): the filename round-trip holds for every docket number
containing neither `_` nor `/`, every document id containing no `_`, and
every filing date whose date-only part contains no `_` (true of the UUID ids
and ISO dates the API serves): scanning the tree containing the persisted
file yields exactly that document id; in particular
`12345-67_abcde-id_2023-01-01.pdf` scans back to `abcde-id`. A docket number
containing `/` or `_` shifts the underscore-separated segments and breaks the
round-trip. -/
theorem claim_C1_roundtrip_amended (docket_number document_id filed_date : Str)
    (hd1 : '/' ∉ docket_number) (hd2 : '_' ∉ docket_number)
    (hi : '_' ∉ document_id) (hf : '_' ∉ dateOnly filed_date) :
    scanExistingDocuments [stemOf (mkFilename docket_number document_id filed_date)]
      = {document_id} := by
  have hstem : stemOf (mkFilename docket_number document_id filed_date)
      = docket_number ++ ['_'] ++ document_id ++ ['_'] ++ dateOnly filed_date := by
    unfold mkFilename
    rw [stemOf_append_pdf, mkSafeDocket_not_mem docket_number hd1]
  have hsplit : splitOnChar '_'
      (docket_number ++ ['_'] ++ document_id ++ ['_'] ++ dateOnly filed_date)
      = [docket_number, document_id, dateOnly filed_date] := by
    have hshape : docket_number ++ ['_'] ++ document_id ++ ['_'] ++ dateOnly filed_date
        = docket_number ++ '_' :: (document_id ++ '_' :: dateOnly filed_date) := by
      simp [List.append_assoc]
    rw [hshape, splitOnChar_append_sep '_' docket_number _ hd2,
      splitOnChar_append_sep '_' document_id _ hi,
      splitOnChar_not_mem '_' (dateOnly filed_date) hf]
  unfold scanExistingDocuments
  rw [List.foldl_cons, hstem, hsplit]
  simp

theorem claim_C1_roundtrip_amended_witness :
    scanExistingDocuments
        [stemOf (mkFilename (str "12345-67") (str "abcde-id") (str "2023-01-01"))]
      = {str "abcde-id"} :=
  claim_C1_roundtrip_amended (str "12345-67") (str "abcde-id") (str "2023-01-01")
    (by decide) (by decide) (by decide) (by decide)

/-! ### Orchestrator claims -/

/-- C6: when `needed = max(0, target - existingCount)` is zero,
`extract_orders` performs no network activity at all (empty event trace, run
state untouched) and goes directly to the summary. -/
theorem claim_C6_satisfied_run_noop (cfg : Config) (env : Env) (st : RunState)
    (num_orders : Int)
    (h : max 0 (num_orders - (st.existing_docs.card : Int)) = 0) :
    extract_orders cfg env st num_orders
      = { state := st, trace := []
        , type_counts := dictInit (cfg.document_types.getD [str "Order"])
        , orders_collected := 0, summaryEmitted := true } := by
  simp [extract_orders, h]

/-- An environment that would fail every call (used to show the short-circuit
paths consult nothing). -/
def envEmpty : Env :=
  { search := fun _ => none, shuffleOrder := fun l => l
  , caseDetails := fun _ => none, download := fun _ => envNone }

theorem claim_C6_satisfied_run_noop_witness :
    extract_orders cfgSub envEmpty stWithId 1
      = { state := stWithId, trace := []
        , type_counts := dictInit (cfgSub.document_types.getD [str "Order"])
        , orders_collected := 0, summaryEmitted := true } :=
  claim_C6_satisfied_run_noop cfgSub envEmpty stWithId 1 (by decide)

/-- An environment whose every search succeeds with an empty result list. -/
def envNoResults : Env :=
  { search := fun _ => some ⟨some []⟩, shuffleOrder := fun l => l
  , caseDetails := fun _ => none, download := fun _ => envNone }

/-- C3 counterexample: when the search phase yields an empty candidate case
set (here: a successful search with zero results, target 1, empty index), the
run returns early WITHOUT emitting the summary — the errors counter is
untouched (a "nothing found" exit, not an error), but the summary step is
skipped, contradicting "execution always proceeds to the summary". -/
theorem claim_C3_counterexample :
    (extract_orders cfgSub envNoResults st0 1).summaryEmitted = false
    ∧ (extract_orders cfgSub envNoResults st0 1).state.stats.errors = 0 := by
  decide

/-- C3 (amended): `extract_orders` always terminates and emits the summary on
every path EXCEPT exactly one: when the shortfall is non-zero and the
deduplicated candidate docket set from the search phase is empty, the run
exits early (a "nothing found" outcome, not an error) without the summary. -/
theorem claim_C3_summary_amended (cfg : Config) (env : Env) (st : RunState)
    (num_orders : Int) :
    (extract_orders cfg env st num_orders).summaryEmitted = false
      ↔ (max 0 (num_orders - (st.existing_docs.card : Int)) ≠ 0
        ∧ dedupFirst (searchMany cfg env (cfg.search_keywords.getD [str "order"]) st).1
            = []) := by
  by_cases h : max 0 (num_orders - (st.existing_docs.card : Int)) = 0
  · simp [extract_orders, h]
  · by_cases h2 : dedupFirst
        (searchMany cfg env (cfg.search_keywords.getD [str "order"]) st).1 = []
    · simp [extract_orders, h, h2, List.isEmpty_iff]
    · simp [extract_orders, h, h2, List.isEmpty_iff]

/-- One unsealed docket entry with the given type and id, filed on an ISO
timestamp (used by the quota-fairness scenario). -/
def mkEntry (ty id : String) : DocketEntry :=
  { documentType := some (str ty), isSealed := some false
  , docketEntryId := some (str id), description := none
  , filingDate := some (str "2023-01-01T00:00:00") }

/-- The quota-fairness case: candidate documents of types `A,A,A,B,A` in
docket order, all with fresh ids. -/
def case9 : CaseData :=
  { docketNumber := some (str "11111-22")
  , docketEntries := some [mkEntry "A" "a-1", mkEntry "A" "a-2", mkEntry "A" "a-3",
      mkEntry "B" "b-1", mkEntry "A" "a-4"] }

/-- Wanted types `A` and `B` with a per-type minimum of 2, exact matching. -/
def cfg9 : Config :=
  { document_types := some [str "A", str "B"], match_mode := some (str "exact")
  , min_per_type := some 2, search_keywords := some [str "k"] }

/-- The quota-fairness environment: one keyword finds the one case, every
download attempt succeeds. -/
def env9 : Env :=
  { search := fun _ => some ⟨some [⟨some (str "11111-22"), some (str "A")⟩]⟩
  , shuffleOrder := fun l => l
  , caseDetails := fun _ => some case9
  , download := fun _ => envOk }

/-- The PDF filenames written during a run, in write order. -/
def pdfWritesOf (tr : List Event) : List Str :=
  tr.filterMap fun e =>
    match e with
    | Event.wrotePdf f => some f
    | _ => none

/-- C9: with a minimum of 2 per type over wanted types A and B, target 4 and
an empty index, and the candidate stream `A,A,A,B,A` (fresh ids, every
download succeeding), the run downloads exactly the first two A documents and
then the B document — the third and fifth A candidates are passed over in
favour of the under-represented type B — ending with 2 A downloads and 1 B
(all the B supply there is), never 4 A's and 0 B's. -/
theorem claim_C9_quota_fairness :
    (extract_orders cfg9 env9 st0 4).type_counts = [(str "A", 2), (str "B", 1)]
    ∧ (extract_orders cfg9 env9 st0 4).orders_collected = 3
    ∧ pdfWritesOf (extract_orders cfg9 env9 st0 4).trace
        = [mkFilename (str "11111-22") (str "a-1") (str "2023-01-01T00:00:00"),
           mkFilename (str "11111-22") (str "a-2") (str "2023-01-01T00:00:00"),
           mkFilename (str "11111-22") (str "b-1") (str "2023-01-01T00:00:00")]
    ∧ ¬(dictGet (extract_orders cfg9 env9 st0 4).type_counts (str "A") = 4
        ∧ dictGet (extract_orders cfg9 env9 st0 4).type_counts (str "B") = 0) := by
  decide
